import Mathlib

/-!
Verification development for the boo multimedia layer core.

The definitions below are a shallow embedding of the repository's C++
sources:

* `src/lib/audiodev/AudioVoice.cpp` — voice pump, deferred parameter
  latching, resampler input callbacks, send-matrix routing;
* `src/lib/audiodev/AQS.cpp` — the AudioQueueServices engine callback and
  the MIDI endpoint constructors;
* `src/include/boo/graphicsdev/IGraphicsDataFactory.hpp` — the move-only
  graphics lifetime tokens;
* `src/src/inputdev/CHIDListenerIOKit.cpp` — the HID hot-plug listener.

C++ `double` values are embedded as `ℚ` (the code only stores, multiplies
and divides them), buffers as `List`, and pointers to external objects as
`Option ℕ` handles.  Calls into external libraries (soxr, CoreAudio,
CoreMIDI, IOKit) and into client callbacks are embedded as explicit
oracle parameters or recorded as events, so every repository-side branch
and state change stays visible.
-/

namespace boo

/-- State of a voice's soxr resampler as the repository configures it:
`soxr_create(rateIn, rateOut, channels, ...)` followed by
`soxr_set_io_ratio(ratio, slewFrames)`.  The library's internal filter
state is external; the fields are exactly the configuration the
repository hands it. -/
structure SoxrState where
  rateIn : ℚ
  rateOut : ℚ
  channels : ℕ
  ioRatio : ℚ
  slewFrames : ℕ
deriving Repr, DecidableEq

/-- `soxr_create(sampleRate, rateOut, chans, ...)`: a fresh resampler whose
io ratio starts at the creation rates' quotient and is unslewed. -/
def soxr_create (rateIn rateOut : ℚ) (chans : ℕ) : SoxrState :=
  { rateIn := rateIn, rateOut := rateOut, channels := chans
    ioRatio := rateIn / rateOut, slewFrames := 0 }

/-- `soxr_set_io_ratio(src, ratio, slew)`. -/
def soxr_set_io_ratio (s : SoxrState) (ratio : ℚ) (slew : ℕ) : SoxrState :=
  { s with ioRatio := ratio, slewFrames := slew }

/-- The `AudioVoice` fields the translated member functions touch
(`AudioVoice.hpp` declarations as used by `AudioVoice.cpp`).  The
per-submix send map is embedded as the list of submix bus keys; the
`AudioMatrixMono`/`AudioMatrixStereo` values stored under the keys are
external objects recorded by tag in mix events. -/
structure AudioVoice where
  m_dynamicRate : Bool
  m_running : Bool
  m_silentOut : Bool
  m_setPitchRatio : Bool
  m_pitchRatio : ℚ
  m_slew : Bool
  m_resetSampleRate : Bool
  m_deferredSampleRate : ℚ
  m_sampleRateIn : ℚ
  m_sampleRateOut : ℚ
  m_src : SoxrState
  m_sendMatrices : List ℕ
deriving Repr, DecidableEq

/-- `AudioVoice::setPitchRatio` (AudioVoice.cpp lines 45–50): latch the
ratio, the slew flag and the pending bit; nothing else. -/
def AudioVoice.setPitchRatio (v : AudioVoice) (ratio : ℚ) (slew : Bool) :
    AudioVoice :=
  { v with m_setPitchRatio := true, m_pitchRatio := ratio, m_slew := slew }

/-- `AudioVoice::resetSampleRate` (AudioVoice.cpp lines 52–56): latch the
rate and the pending bit; nothing else. -/
def AudioVoice.resetSampleRate (v : AudioVoice) (sampleRate : ℚ) :
    AudioVoice :=
  { v with m_resetSampleRate := true, m_deferredSampleRate := sampleRate }

/-- `AudioVoice::_setPitchRatio` (AudioVoice.cpp lines 22–35): for a
dynamic-rate voice set the resampler's io ratio (slewIn picks the engine's
5 ms frame constant `n5ms`); in every case clear the pending flag.  The
soxr error branch (which also just clears the flag) is not taken in the
embedding, where `soxr_set_io_ratio` always succeeds. -/
def AudioVoice._setPitchRatio (n5ms : ℕ) (v : AudioVoice) (ratio : ℚ)
    (slew : Bool) : AudioVoice :=
  if v.m_dynamicRate then
    { v with
      m_src := soxr_set_io_ratio v.m_src
        (ratio * v.m_sampleRateIn / v.m_sampleRateOut)
        (if slew then n5ms else 0)
      m_setPitchRatio := false }
  else
    { v with m_setPitchRatio := false }

/-- `AudioVoiceMono::_resetSampleRate` / `AudioVoiceStereo::_resetSampleRate`
(AudioVoice.cpp lines 84–109 and 284–309), which differ only in the
channel count passed to `soxr_create` (1 for mono, 2 for stereo), here the
`chans` parameter.  Rebuild the resampler at the new input rate against
the engine mix rate `mixRate`, store the rates, re-apply the current pitch
ratio without slew, and clear the pending flag.  The soxr creation-failure
branch is not taken in the embedding. -/
def AudioVoice._resetSampleRateCh (chans : ℕ) (mixRate : ℚ) (n5ms : ℕ)
    (v : AudioVoice) (sampleRate : ℚ) : AudioVoice :=
  let rateOut := mixRate
  let v' := { v with
                m_src := soxr_create sampleRate rateOut chans
                m_sampleRateIn := sampleRate
                m_sampleRateOut := rateOut }
  let v'' := AudioVoice._setPitchRatio n5ms v' v'.m_pitchRatio false
  { v'' with m_resetSampleRate := false }

/-- `AudioVoice::_midUpdate` (AudioVoice.cpp lines 37–43): at the top of a
pump, apply a pending sample-rate reset, then a pending pitch-ratio
change.  (A reset itself re-applies the ratio and clears the pitch flag,
so after a reset the second branch is not taken.) -/
def AudioVoice._midUpdate (chans : ℕ) (mixRate : ℚ) (n5ms : ℕ)
    (v : AudioVoice) : AudioVoice :=
  let v1 := if v.m_resetSampleRate then
              AudioVoice._resetSampleRateCh chans mixRate n5ms v
                v.m_deferredSampleRate
            else v
  if v1.m_setPitchRatio then
    AudioVoice._setPitchRatio n5ms v1 v1.m_pitchRatio v1.m_slew
  else v1

/-! ### Engine scratch buffers and the resampler input callbacks -/

/-- `std::vector<T>::resize(n)` on the growth path the repository uses:
when the current size is below `n`, append zero-initialized elements up
to size `n`; otherwise (the repository never requests this) leave the
vector alone. -/
def growTo {α : Type} (z : α) (buf : List α) (n : ℕ) : List α :=
  if buf.length < n then buf ++ List.replicate (n - buf.length) z else buf

/-- The float pumps' growth step (AudioVoice.cpp lines 202–208, 409–415):
when the size is below the demand `n`, resize to `n + pad` (`pad` = 2 for
mono, 4 for stereo). -/
def growToPad {α : Type} (z : α) (pad : ℕ) (buf : List α) (n : ℕ) :
    List α :=
  if buf.length < n then buf ++ List.replicate (n + pad - buf.length) z
  else buf

/-- Overwrite the front of `buf` with `w`, keeping `buf`'s length: a write
through `data()` into an existing `std::vector` allocation. -/
def overwrite {α : Type} (buf w : List α) : List α :=
  (w ++ buf.drop w.length).take buf.length

/-- The engine's shared scratch vectors (`BaseAudioVoiceEngine` members
used by AudioVoice.cpp): the int16 resampler input staging plus pre/post
blocks in each output sample format. -/
structure EngineScratch where
  m_scratchIn : List ℤ
  m_scratch16Pre : List ℤ
  m_scratch16Post : List ℤ
  m_scratch32Pre : List ℤ
  m_scratch32Post : List ℤ
  m_scratchFltPre : List ℚ
  m_scratchFltPost : List ℚ
deriving Repr, DecidableEq

/-- Result of one resampler input callback: the updated shared scratch-in
vector, the frame count returned to soxr, and whether the client's
`supplyAudio` was invoked. -/
structure SRCResult where
  m_scratchIn : List ℤ
  retFrames : ℕ
  supplyCalled : Bool
deriving Repr, DecidableEq

/-- `AudioVoiceMono::SRCCallback` (AudioVoice.cpp lines 111–124): grow the
shared scratch-in to `frames` samples; if the voice is silent-out, memset
`frames` int16 zeros and report the full request; otherwise hand the
buffer to the client's `supplyAudio` (embedded as the oracle `supply`,
returning the bytes it writes and the frame count it reports). -/
def AudioVoiceMono.SRCCallback (v : AudioVoice)
    (supply : ℕ → List ℤ × ℕ) (scratchIn : List ℤ) (frames : ℕ) :
    SRCResult :=
  let sIn := growTo 0 scratchIn frames
  if v.m_silentOut then
    { m_scratchIn := overwrite sIn (List.replicate frames 0)
      retFrames := frames, supplyCalled := false }
  else
    let r := supply frames
    { m_scratchIn := overwrite sIn r.1
      retFrames := r.2, supplyCalled := true }

/-- `AudioVoiceStereo::SRCCallback` (AudioVoice.cpp lines 311–325): as the
mono one but staging `2 * frames` interleaved samples; the silent path
zeroes all of them yet still reports `frames`. -/
def AudioVoiceStereo.SRCCallback (v : AudioVoice)
    (supply : ℕ → List ℤ × ℕ) (scratchIn : List ℤ) (frames : ℕ) :
    SRCResult :=
  let samples := frames * 2
  let sIn := growTo 0 scratchIn samples
  if v.m_silentOut then
    { m_scratchIn := overwrite sIn (List.replicate samples 0)
      retFrames := frames, supplyCalled := false }
  else
    let r := supply frames
    { m_scratchIn := overwrite sIn r.1
      retFrames := r.2, supplyCalled := true }

/-! ### The per-voice pump functions

`pumpAndMix16/32/Flt` (mono and stereo) share one shape: grow the two
scratch blocks for the format, run the client's `preSupplyAudio` hook,
apply deferred parameter changes via `_midUpdate`, request `frames` of
resampler output (`soxr_output`, embedded as the oracle `outFn` from the
resampler state and the request to the produced count), and, when output
was produced, route and matrix-mix one block per send-matrix entry — or
one block through the default matrix into the main submix when the map is
empty.  The arithmetic inside `mixMonoSampleData` / `mixStereoSampleData`
and `routeAudio` lives in external objects, so each mix is recorded as an
event naming the destination bus, the matrix object used and the frame
count. -/

/-- Which matrix object a mix used: the file-scope `DefaultMonoMtx` /
`DefaultStereoMtx` (AudioVoice.cpp lines 9–10), or the voice's send-map
entry stored under a bus key. -/
inductive MixMatrix where
  | defaultMono : MixMatrix
  | defaultStereo : MixMatrix
  | voiceMono (bus : ℕ) : MixMatrix
  | voiceStereo (bus : ℕ) : MixMatrix
deriving Repr, DecidableEq

/-- One `mix*SampleData` call into a submix merge buffer. -/
structure MixEvent where
  bus : ℕ
  matrix : MixMatrix
  frames : ℕ
deriving Repr, DecidableEq

/-- Result of one voice pump. -/
structure PumpResult where
  voice : AudioVoice
  scratch : EngineScratch
  oDone : ℕ
  mixes : List MixEvent
deriving Repr, DecidableEq

/-- `AudioVoiceMono::pumpAndMix16` (AudioVoice.cpp lines 126–161).
`preSupply` embeds the client's `preSupplyAudio` hook (which may mutate
the voice through its setters), `outFn` embeds `soxr_output`, `mixRate`
and `n5ms` are the engine's mix rate and 5 ms frame constant, and
`mainBus` is the main submix's bus id. -/
def AudioVoiceMono.pumpAndMix16 (preSupply : AudioVoice → AudioVoice)
    (outFn : SoxrState → ℕ → ℕ) (mixRate : ℚ) (n5ms : ℕ) (mainBus : ℕ)
    (v : AudioVoice) (s : EngineScratch) (frames : ℕ) : PumpResult :=
  let s := { s with
               m_scratch16Pre := growTo 0 s.m_scratch16Pre frames
               m_scratch16Post := growTo 0 s.m_scratch16Post frames }
  let v := AudioVoice._midUpdate 1 mixRate n5ms (preSupply v)
  let oDone := outFn v.m_src frames
  let mixes :=
    if oDone ≠ 0 then
      if v.m_sendMatrices ≠ [] then
        v.m_sendMatrices.map fun b => ⟨b, MixMatrix.voiceMono b, oDone⟩
      else [⟨mainBus, MixMatrix.defaultMono, oDone⟩]
    else []
  ⟨v, s, oDone, mixes⟩

/-- `AudioVoiceMono::pumpAndMix32` (AudioVoice.cpp lines 163–198). -/
def AudioVoiceMono.pumpAndMix32 (preSupply : AudioVoice → AudioVoice)
    (outFn : SoxrState → ℕ → ℕ) (mixRate : ℚ) (n5ms : ℕ) (mainBus : ℕ)
    (v : AudioVoice) (s : EngineScratch) (frames : ℕ) : PumpResult :=
  let s := { s with
               m_scratch32Pre := growTo 0 s.m_scratch32Pre frames
               m_scratch32Post := growTo 0 s.m_scratch32Post frames }
  let v := AudioVoice._midUpdate 1 mixRate n5ms (preSupply v)
  let oDone := outFn v.m_src frames
  let mixes :=
    if oDone ≠ 0 then
      if v.m_sendMatrices ≠ [] then
        v.m_sendMatrices.map fun b => ⟨b, MixMatrix.voiceMono b, oDone⟩
      else [⟨mainBus, MixMatrix.defaultMono, oDone⟩]
    else []
  ⟨v, s, oDone, mixes⟩

/-- `AudioVoiceMono::pumpAndMixFlt` (AudioVoice.cpp lines 200–235); the
float scratch blocks grow to `frames + 2` when below `frames`. -/
def AudioVoiceMono.pumpAndMixFlt (preSupply : AudioVoice → AudioVoice)
    (outFn : SoxrState → ℕ → ℕ) (mixRate : ℚ) (n5ms : ℕ) (mainBus : ℕ)
    (v : AudioVoice) (s : EngineScratch) (frames : ℕ) : PumpResult :=
  let s := { s with
               m_scratchFltPre := growToPad 0 2 s.m_scratchFltPre frames
               m_scratchFltPost := growToPad 0 2 s.m_scratchFltPost frames }
  let v := AudioVoice._midUpdate 1 mixRate n5ms (preSupply v)
  let oDone := outFn v.m_src frames
  let mixes :=
    if oDone ≠ 0 then
      if v.m_sendMatrices ≠ [] then
        v.m_sendMatrices.map fun b => ⟨b, MixMatrix.voiceMono b, oDone⟩
      else [⟨mainBus, MixMatrix.defaultMono, oDone⟩]
    else []
  ⟨v, s, oDone, mixes⟩

/-- `AudioVoiceStereo::pumpAndMix16` (AudioVoice.cpp lines 327–364):
the scratch blocks stage `2 * frames` interleaved samples. -/
def AudioVoiceStereo.pumpAndMix16 (preSupply : AudioVoice → AudioVoice)
    (outFn : SoxrState → ℕ → ℕ) (mixRate : ℚ) (n5ms : ℕ) (mainBus : ℕ)
    (v : AudioVoice) (s : EngineScratch) (frames : ℕ) : PumpResult :=
  let samples := frames * 2
  let s := { s with
               m_scratch16Pre := growTo 0 s.m_scratch16Pre samples
               m_scratch16Post := growTo 0 s.m_scratch16Post samples }
  let v := AudioVoice._midUpdate 2 mixRate n5ms (preSupply v)
  let oDone := outFn v.m_src frames
  let mixes :=
    if oDone ≠ 0 then
      if v.m_sendMatrices ≠ [] then
        v.m_sendMatrices.map fun b => ⟨b, MixMatrix.voiceStereo b, oDone⟩
      else [⟨mainBus, MixMatrix.defaultStereo, oDone⟩]
    else []
  ⟨v, s, oDone, mixes⟩

/-- `AudioVoiceStereo::pumpAndMix32` (AudioVoice.cpp lines 366–403). -/
def AudioVoiceStereo.pumpAndMix32 (preSupply : AudioVoice → AudioVoice)
    (outFn : SoxrState → ℕ → ℕ) (mixRate : ℚ) (n5ms : ℕ) (mainBus : ℕ)
    (v : AudioVoice) (s : EngineScratch) (frames : ℕ) : PumpResult :=
  let samples := frames * 2
  let s := { s with
               m_scratch32Pre := growTo 0 s.m_scratch32Pre samples
               m_scratch32Post := growTo 0 s.m_scratch32Post samples }
  let v := AudioVoice._midUpdate 2 mixRate n5ms (preSupply v)
  let oDone := outFn v.m_src frames
  let mixes :=
    if oDone ≠ 0 then
      if v.m_sendMatrices ≠ [] then
        v.m_sendMatrices.map fun b => ⟨b, MixMatrix.voiceStereo b, oDone⟩
      else [⟨mainBus, MixMatrix.defaultStereo, oDone⟩]
    else []
  ⟨v, s, oDone, mixes⟩

/-- `AudioVoiceStereo::pumpAndMixFlt` (AudioVoice.cpp lines 405–442); the
float scratch blocks grow to `samples + 4` when below `samples`. -/
def AudioVoiceStereo.pumpAndMixFlt (preSupply : AudioVoice → AudioVoice)
    (outFn : SoxrState → ℕ → ℕ) (mixRate : ℚ) (n5ms : ℕ) (mainBus : ℕ)
    (v : AudioVoice) (s : EngineScratch) (frames : ℕ) : PumpResult :=
  let samples := frames * 2
  let s := { s with
               m_scratchFltPre := growToPad 0 4 s.m_scratchFltPre samples
               m_scratchFltPost := growToPad 0 4 s.m_scratchFltPost samples }
  let v := AudioVoice._midUpdate 2 mixRate n5ms (preSupply v)
  let oDone := outFn v.m_src frames
  let mixes :=
    if oDone ≠ 0 then
      if v.m_sendMatrices ≠ [] then
        v.m_sendMatrices.map fun b => ⟨b, MixMatrix.voiceStereo b, oDone⟩
      else [⟨mainBus, MixMatrix.defaultStereo, oDone⟩]
    else []
  ⟨v, s, oDone, mixes⟩

/-! ### Scratch-buffer discipline across a sequence of operations -/

/-- A bundle of the external parameters one pump runs with. -/
structure PumpCtx where
  preSupply : AudioVoice → AudioVoice
  outFn : SoxrState → ℕ → ℕ
  mixRate : ℚ
  n5ms : ℕ
  mainBus : ℕ
  voice : AudioVoice

/-- One engine operation that touches the shared scratch vectors: a voice
pump in one of the three sample formats for either arity, or a resampler
input callback. -/
inductive ScratchOp where
  | p16M (c : PumpCtx) (frames : ℕ) : ScratchOp
  | p32M (c : PumpCtx) (frames : ℕ) : ScratchOp
  | pFltM (c : PumpCtx) (frames : ℕ) : ScratchOp
  | p16S (c : PumpCtx) (frames : ℕ) : ScratchOp
  | p32S (c : PumpCtx) (frames : ℕ) : ScratchOp
  | pFltS (c : PumpCtx) (frames : ℕ) : ScratchOp
  | srcM (v : AudioVoice) (supply : ℕ → List ℤ × ℕ) (frames : ℕ) : ScratchOp
  | srcS (v : AudioVoice) (supply : ℕ → List ℤ × ℕ) (frames : ℕ) : ScratchOp

/-- Run one operation's effect on the engine scratch state, through the
translated pump and callback functions. -/
def ScratchOp.apply (s : EngineScratch) : ScratchOp → EngineScratch
  | .p16M c f =>
      (AudioVoiceMono.pumpAndMix16 c.preSupply c.outFn c.mixRate c.n5ms
        c.mainBus c.voice s f).scratch
  | .p32M c f =>
      (AudioVoiceMono.pumpAndMix32 c.preSupply c.outFn c.mixRate c.n5ms
        c.mainBus c.voice s f).scratch
  | .pFltM c f =>
      (AudioVoiceMono.pumpAndMixFlt c.preSupply c.outFn c.mixRate c.n5ms
        c.mainBus c.voice s f).scratch
  | .p16S c f =>
      (AudioVoiceStereo.pumpAndMix16 c.preSupply c.outFn c.mixRate c.n5ms
        c.mainBus c.voice s f).scratch
  | .p32S c f =>
      (AudioVoiceStereo.pumpAndMix32 c.preSupply c.outFn c.mixRate c.n5ms
        c.mainBus c.voice s f).scratch
  | .pFltS c f =>
      (AudioVoiceStereo.pumpAndMixFlt c.preSupply c.outFn c.mixRate c.n5ms
        c.mainBus c.voice s f).scratch
  | .srcM v supply f =>
      { s with m_scratchIn :=
          (AudioVoiceMono.SRCCallback v supply s.m_scratchIn f).m_scratchIn }
  | .srcS v supply f =>
      { s with m_scratchIn :=
          (AudioVoiceStereo.SRCCallback v supply s.m_scratchIn f).m_scratchIn }

/-- Per-buffer sizes (or demands) of the seven scratch vectors. -/
structure ScratchSizes where
  sIn : ℕ
  s16Pre : ℕ
  s16Post : ℕ
  s32Pre : ℕ
  s32Post : ℕ
  sFltPre : ℕ
  sFltPost : ℕ
deriving Repr, DecidableEq

/-- The seven current sizes of an `EngineScratch`. -/
def scratchLens (s : EngineScratch) : ScratchSizes :=
  ⟨s.m_scratchIn.length, s.m_scratch16Pre.length, s.m_scratch16Post.length,
   s.m_scratch32Pre.length, s.m_scratch32Post.length,
   s.m_scratchFltPre.length, s.m_scratchFltPost.length⟩

/-- Componentwise order on scratch sizes. -/
def sizesLE (a b : ScratchSizes) : Prop :=
  a.sIn ≤ b.sIn ∧ a.s16Pre ≤ b.s16Pre ∧ a.s16Post ≤ b.s16Post ∧
  a.s32Pre ≤ b.s32Pre ∧ a.s32Post ≤ b.s32Post ∧
  a.sFltPre ≤ b.sFltPre ∧ a.sFltPost ≤ b.sFltPost

instance (a b : ScratchSizes) : Decidable (sizesLE a b) := by
  unfold sizesLE; infer_instance

/-- What an operation demands of each scratch vector: the requested frame
count times the voice channel count for the vectors it stages, zero for
the vectors it does not touch. -/
def ScratchOp.demand : ScratchOp → ScratchSizes
  | .p16M _ f => ⟨0, f, f, 0, 0, 0, 0⟩
  | .p32M _ f => ⟨0, 0, 0, f, f, 0, 0⟩
  | .pFltM _ f => ⟨0, 0, 0, 0, 0, f, f⟩
  | .p16S _ f => ⟨0, f * 2, f * 2, 0, 0, 0, 0⟩
  | .p32S _ f => ⟨0, 0, 0, f * 2, f * 2, 0, 0⟩
  | .pFltS _ f => ⟨0, 0, 0, 0, 0, f * 2, f * 2⟩
  | .srcM _ _ f => ⟨f, 0, 0, 0, 0, 0, 0⟩
  | .srcS _ _ f => ⟨f * 2, 0, 0, 0, 0, 0, 0⟩

/-! ### Graphics lifetime tokens (IGraphicsDataFactory.hpp) -/

/-- `GraphicsDataToken` (IGraphicsDataFactory.hpp lines 285–327): a
factory pointer and a data-group pointer, each null (`none`) or a handle. -/
structure GraphicsDataToken where
  m_factory : Option ℕ
  m_data : Option ℕ
deriving Repr, DecidableEq

/-- `GraphicsDataToken::doDestroy` (lines 297–305): when both pointers are
non-null, call `m_factory->destroyData(m_data)` — recorded as the event
`(factory, data)` — and null both; otherwise do nothing. -/
def GraphicsDataToken.doDestroy (t : GraphicsDataToken) :
    GraphicsDataToken × List (ℕ × ℕ) :=
  match t.m_factory, t.m_data with
  | some f, some d => (⟨none, none⟩, [(f, d)])
  | _, _ => (t, [])

/-- `operator bool()` (line 326): `m_factory && m_data`. -/
def GraphicsDataToken.toBool (t : GraphicsDataToken) : Bool :=
  t.m_factory.isSome && t.m_data.isSome

/-- The move constructor (lines 308–314): steal both pointers, nulling the
source's.  Returns (the new token, the moved-from source). -/
def GraphicsDataToken.moveCtor (other : GraphicsDataToken) :
    GraphicsDataToken × GraphicsDataToken :=
  (⟨other.m_factory, other.m_data⟩, ⟨none, none⟩)

/-- Move assignment (lines 316–324): `doDestroy()` the destination's held
group, then steal the source's pointers.  Returns ((the assigned
destination, the moved-from source), the destroy events emitted). -/
def GraphicsDataToken.moveAssign (dst other : GraphicsDataToken) :
    (GraphicsDataToken × GraphicsDataToken) × List (ℕ × ℕ) :=
  ((⟨other.m_factory, other.m_data⟩, ⟨none, none⟩), (dst.doDestroy).2)

/-- `GraphicsBufferPoolToken` (IGraphicsDataFactory.hpp lines 332–388). -/
structure GraphicsBufferPoolToken where
  m_factory : Option ℕ
  m_pool : Option ℕ
deriving Repr, DecidableEq

/-- `GraphicsBufferPoolToken::doDestroy` (lines 344–352): when both
pointers are non-null, call `m_factory->destroyPool(m_pool)` and null
both; otherwise do nothing. -/
def GraphicsBufferPoolToken.doDestroy (t : GraphicsBufferPoolToken) :
    GraphicsBufferPoolToken × List (ℕ × ℕ) :=
  match t.m_factory, t.m_pool with
  | some f, some p => (⟨none, none⟩, [(f, p)])
  | _, _ => (t, [])

/-- `operator bool()` (line 373). -/
def GraphicsBufferPoolToken.toBool (t : GraphicsBufferPoolToken) : Bool :=
  t.m_factory.isSome && t.m_pool.isSome

/-- The pool token's move constructor (lines 355–361). -/
def GraphicsBufferPoolToken.moveCtor (other : GraphicsBufferPoolToken) :
    GraphicsBufferPoolToken × GraphicsBufferPoolToken :=
  (⟨other.m_factory, other.m_pool⟩, ⟨none, none⟩)

/-- The pool token's move assignment (lines 363–371). -/
def GraphicsBufferPoolToken.moveAssign (dst other : GraphicsBufferPoolToken) :
    (GraphicsBufferPoolToken × GraphicsBufferPoolToken) × List (ℕ × ℕ) :=
  ((⟨other.m_factory, other.m_pool⟩, ⟨none, none⟩), (dst.doDestroy).2)

/-! ### The AudioQueueServices hardware callback (AQS.cpp) -/

/-- The engine fields `AQSAudioVoiceEngine::Callback` reads and writes.
The sample rate is kept as the `size_t(m_mixInfo.m_sampleRate)` the wait
computation truncates it to. -/
structure AQSEngine where
  m_cbRunning : Bool
  m_inRetrace : Bool
  m_inCb : Bool
  m_periodFrames : ℕ
  m_sampleRate : ℕ
  m_frameBytes : ℕ
deriving Repr, DecidableEq

/-- Outcome of the callback's bounded `wait_for` on the enter condition
variable: whether it timed out, and the value of `m_inRetrace` after the
wait (the client may have changed it while the callback slept). -/
structure WaitOutcome where
  timedOut : Bool
  inRetraceAfter : Bool
deriving Repr, DecidableEq

/-- Observable effects of one hardware callback. -/
structure CbResult where
  /-- the callback body ran (`m_cbRunning` was set) -/
  ran : Bool
  /-- nanoseconds of the bounded wait, when the callback waited -/
  waitNanos : Option ℕ
  /-- bytes zero-filled into the hardware buffer (0 when it pumped) -/
  zeroFillBytes : ℕ
  /-- the buffer was re-enqueued on the hardware queue -/
  enqueued : Bool
  /-- frames pumped through `_pumpAndMixVoices`, `none` when no pump ran -/
  pumpedFrames : Option ℕ
  /-- the leave condition variable was notified -/
  leaveNotified : Bool
deriving Repr, DecidableEq

/-- `AQSAudioVoiceEngine::Callback` (AQS.cpp lines 54–84).  When not in
retrace the callback waits up to
`m_periodFrames * 1000000000 / size_t(m_sampleRate)` nanoseconds for the
client; on timeout — or if retrace was abandoned while waiting — it
zero-fills the full period, re-enqueues the buffer, notifies `leave` and
returns without pumping.  Otherwise it pumps a full period into the
buffer and re-enqueues it. -/
def AQSCallback (e : AQSEngine) (w : WaitOutcome) : AQSEngine × CbResult :=
  if e.m_cbRunning = false then
    (e, ⟨false, none, 0, false, none, false⟩)
  else
    let e1 := { e with m_inCb := true }
    if e1.m_inRetrace = false then
      let nanos := e.m_periodFrames * 1000000000 / e.m_sampleRate
      let e2 := { e1 with m_inRetrace := w.inRetraceAfter }
      if w.timedOut || w.inRetraceAfter = false then
        ({ e2 with m_inCb := false },
         ⟨true, some nanos, e.m_frameBytes, true, none, true⟩)
      else
        ({ e2 with m_inCb := false },
         ⟨true, some nanos, 0, true, some e.m_periodFrames, true⟩)
    else
      ({ e1 with m_inCb := false },
       ⟨true, none, 0, true, some e.m_periodFrames, true⟩)

/-! ### MIDI endpoint constructors (AQS.cpp lines 415–578)

Each constructor checks the shared MIDI client, looks up the named device
for the real variants, and attempts OS endpoint/port creation; every
failure returns a null `unique_ptr` (`none`).  OS call outcomes are
oracle booleans.  A successful endpoint is reported as the name counter
it was minted with; the counters advance exactly where the source's
`m_midiInCounter++` / `m_midiOutCounter++` run. -/

/-- The engine state the MIDI constructors touch, plus the audio queue's
running flag (which none of them touch). -/
structure MidiCtx where
  m_midiClient : Bool
  m_midiInCounter : ℕ
  m_midiOutCounter : ℕ
  queueRunning : Bool
deriving Repr, DecidableEq

/-- `AQSAudioVoiceEngine::newVirtualMIDIIn` (AQS.cpp lines 415–435). -/
def newVirtualMIDIIn (c : MidiCtx) (destCreateOk : Bool) :
    MidiCtx × Option ℕ :=
  if c.m_midiClient = false then (c, none)
  else
    let n := c.m_midiInCounter
    let c := { c with m_midiInCounter := n + 1 }
    if destCreateOk then (c, some n) else (c, none)

/-- `AQSAudioVoiceEngine::newVirtualMIDIOut` (AQS.cpp lines 437–454). -/
def newVirtualMIDIOut (c : MidiCtx) (srcCreateOk : Bool) :
    MidiCtx × Option ℕ :=
  if c.m_midiClient = false then (c, none)
  else
    let n := c.m_midiOutCounter
    let c := { c with m_midiOutCounter := n + 1 }
    if srcCreateOk then (c, some n) else (c, none)

/-- `AQSAudioVoiceEngine::newVirtualMIDIInOut` (AQS.cpp lines 456–484). -/
def newVirtualMIDIInOut (c : MidiCtx) (destCreateOk srcCreateOk : Bool) :
    MidiCtx × Option ℕ :=
  if c.m_midiClient = false then (c, none)
  else
    let n := c.m_midiInCounter
    let c := { c with m_midiInCounter := n + 1 }
    if destCreateOk = false then (c, none)
    else
      let c := { c with m_midiOutCounter := c.m_midiOutCounter + 1 }
      if srcCreateOk then (c, some n) else (c, none)

/-- `AQSAudioVoiceEngine::newRealMIDIIn` (AQS.cpp lines 486–511). -/
def newRealMIDIIn (c : MidiCtx) (srcFound portCreateOk : Bool) :
    MidiCtx × Option ℕ :=
  if c.m_midiClient = false then (c, none)
  else if srcFound = false then (c, none)
  else
    let n := c.m_midiInCounter
    let c := { c with m_midiInCounter := n + 1 }
    if portCreateOk then (c, some n) else (c, none)

/-- `AQSAudioVoiceEngine::newRealMIDIOut` (AQS.cpp lines 513–536). -/
def newRealMIDIOut (c : MidiCtx) (dstFound portCreateOk : Bool) :
    MidiCtx × Option ℕ :=
  if c.m_midiClient = false then (c, none)
  else if dstFound = false then (c, none)
  else
    let n := c.m_midiOutCounter
    let c := { c with m_midiOutCounter := n + 1 }
    if portCreateOk then (c, some n) else (c, none)

/-- `AQSAudioVoiceEngine::newRealMIDIInOut` (AQS.cpp lines 538–578). -/
def newRealMIDIInOut (c : MidiCtx)
    (srcFound dstFound inPortOk outPortOk : Bool) : MidiCtx × Option ℕ :=
  if c.m_midiClient = false then (c, none)
  else if srcFound = false then (c, none)
  else if dstFound = false then (c, none)
  else
    let n := c.m_midiInCounter
    let c := { c with m_midiInCounter := n + 1 }
    if inPortOk = false then (c, none)
    else
      let c := { c with m_midiOutCounter := c.m_midiOutCounter + 1 }
      if outPortOk then (c, some n) else (c, none)

/-! ### HID hot-plug listener (CHIDListenerIOKit.cpp) -/

/-- `CDeviceToken`: (vendor id, product id, manufacturer, product, OS
device handle). -/
structure CDeviceToken where
  vendorId : ℤ
  productId : ℤ
  manufacturer : String
  product : String
  handle : ℕ
deriving Repr, DecidableEq

/-- The OS properties `deviceConnected` extracts for a device. -/
structure DeviceProps where
  vid : ℤ
  pid : ℤ
  manuf : String
  product : String
deriving Repr, DecidableEq

/-- Modelled from the spec: `CDeviceFinder`'s token container — "a set of
tokens keyed by OS handle, guarded by a lock" — whose source
(`CDeviceFinder.hpp`) is not among the repository files. -/
abbrev TokenSet : Type := List CDeviceToken

/-- Modelled from the spec: `CDeviceFinder::_hasToken(handle)` — whether
the set holds a token for this OS handle. -/
def TokenSet.hasToken (s : TokenSet) (device : ℕ) : Bool :=
  s.any fun t => t.handle == device

/-- Modelled from the spec: `CDeviceFinder::_insertToken(token)` — add the
token to the set. -/
def TokenSet.insertToken (s : TokenSet) (t : CDeviceToken) : TokenSet :=
  List.append s [t]

/-- How many tokens of the set carry the OS handle `device`. -/
def TokenSet.countHandle (s : TokenSet) (device : ℕ) : ℕ :=
  List.countP (fun t => t.handle == device) s

/-- `CHIDListenerIOKit::deviceConnected` (CHIDListenerIOKit.cpp lines
14–32): ignore the event unless scanning is enabled; ignore it if the
finder already has a token for this OS handle; otherwise extract the
properties and insert a token for the device. -/
def deviceConnected (scanningEnabled : Bool) (s : TokenSet)
    (props : DeviceProps) (device : ℕ) : TokenSet :=
  if scanningEnabled = false then s
  else if s.hasToken device then s
  else s.insertToken
    ⟨props.vid, props.pid, props.manuf, props.product, device⟩

/-! ### Sample states used by the witness instances -/

/-- A concrete dynamic-rate voice. -/
def sampleVoiceDyn : AudioVoice :=
  { m_dynamicRate := true, m_running := true, m_silentOut := false
    m_setPitchRatio := false, m_pitchRatio := 1, m_slew := false
    m_resetSampleRate := false, m_deferredSampleRate := 32000
    m_sampleRateIn := 32000, m_sampleRateOut := 48000
    m_src := soxr_create 32000 48000 1, m_sendMatrices := [] }

/-- A concrete fixed-rate voice. -/
def sampleVoiceStatic : AudioVoice :=
  { sampleVoiceDyn with m_dynamicRate := false }

/-- A concrete scratch state with a staging vector of four samples. -/
def sampleScratch : EngineScratch :=
  { m_scratchIn := List.replicate 4 0, m_scratch16Pre := []
    m_scratch16Post := [], m_scratch32Pre := [], m_scratch32Post := []
    m_scratchFltPre := [], m_scratchFltPost := [] }

/-- A concrete scratch operation: a mono resampler input callback for
four frames. -/
def sampleSrcOp : ScratchOp :=
  ScratchOp.srcM sampleVoiceDyn (fun _ => ([], 0)) 4

/-! ### Helper lemmas on the buffer primitives -/

lemma length_growTo {α : Type} (z : α) (buf : List α) (n : ℕ) :
    (growTo z buf n).length = max buf.length n := by
  unfold growTo
  split <;> simp <;> omega

lemma growTo_of_le {α : Type} (z : α) (buf : List α) (n : ℕ)
    (h : n ≤ buf.length) : growTo z buf n = buf := by
  unfold growTo
  rw [if_neg (by omega)]

lemma length_growToPad {α : Type} (z : α) (p : ℕ) (buf : List α) (n : ℕ) :
    (growToPad z p buf n).length
      = if buf.length < n then n + p else buf.length := by
  unfold growToPad
  split <;> simp
  omega

lemma growToPad_of_le {α : Type} (z : α) (p : ℕ) (buf : List α) (n : ℕ)
    (h : n ≤ buf.length) : growToPad z p buf n = buf := by
  unfold growToPad
  rw [if_neg (by omega)]

lemma length_overwrite {α : Type} (buf w : List α) :
    (overwrite buf w).length = buf.length := by
  simp [overwrite]
  omega

lemma overwrite_take_replicate {α : Type} (z : α) (buf : List α) (n : ℕ)
    (h : n ≤ buf.length) :
    (overwrite buf (List.replicate n z)).take n = List.replicate n z := by
  unfold overwrite
  rw [List.take_take, min_eq_left h]
  exact List.take_left' (by simp)

/-! ### Claim theorems -/

/-- C10: for every voice whose dynamic-rate flag is false, applying a
pending pitch ratio through `_setPitchRatio` leaves the whole voice —
in particular the resampler state — unchanged except for clearing the
pending flag, for any ratio and slew argument. -/
theorem C10_static_rate_pitch_noop (n5ms : ℕ) (v : AudioVoice) (ratio : ℚ)
    (slew : Bool) (h : v.m_dynamicRate = false) :
    AudioVoice._setPitchRatio n5ms v ratio slew
      = { v with m_setPitchRatio := false } := by
  unfold AudioVoice._setPitchRatio
  rw [h]
  simp

/-- C10 witness: the fixed-rate sample voice, ratio 3/2 with slew. -/
theorem C10_static_rate_pitch_noop_witness :
    sampleVoiceStatic.m_dynamicRate = false ∧
    AudioVoice._setPitchRatio 240 sampleVoiceStatic (3 / 2) true
      = { sampleVoiceStatic with m_setPitchRatio := false } :=
  ⟨rfl, C10_static_rate_pitch_noop 240 sampleVoiceStatic (3 / 2) true rfl⟩

/-- C4: a data token holding a committed group invokes `destroyData` on it
exactly once at the first drop (`doDestroy`, which the destructor calls),
and a second `doDestroy` on the emptied token invokes nothing; likewise a
pool token with `destroyPool`. -/
theorem C4_token_destroy_once (t : GraphicsDataToken) (f d : ℕ)
    (p : GraphicsBufferPoolToken) (pf pp : ℕ)
    (htf : t.m_factory = some f) (htd : t.m_data = some d)
    (hpf : p.m_factory = some pf) (hpp : p.m_pool = some pp) :
    t.doDestroy = (⟨none, none⟩, [(f, d)]) ∧
    (t.doDestroy).1.doDestroy = ((t.doDestroy).1, []) ∧
    p.doDestroy = (⟨none, none⟩, [(pf, pp)]) ∧
    (p.doDestroy).1.doDestroy = ((p.doDestroy).1, []) := by
  refine ⟨?_, ?_, ?_, ?_⟩ <;>
    simp [GraphicsDataToken.doDestroy, GraphicsBufferPoolToken.doDestroy,
          htf, htd, hpf, hpp]

/-- C4 witness: concrete tokens over factory 1 with group 2 and pool 3. -/
theorem C4_token_destroy_once_witness :
    (GraphicsDataToken.mk (some 1) (some 2)).doDestroy
      = (⟨none, none⟩, [(1, 2)]) ∧
    ((GraphicsDataToken.mk (some 1) (some 2)).doDestroy).1.doDestroy
      = (((GraphicsDataToken.mk (some 1) (some 2)).doDestroy).1, []) ∧
    (GraphicsBufferPoolToken.mk (some 1) (some 3)).doDestroy
      = (⟨none, none⟩, [(1, 3)]) ∧
    ((GraphicsBufferPoolToken.mk (some 1) (some 3)).doDestroy).1.doDestroy
      = (((GraphicsBufferPoolToken.mk (some 1) (some 3)).doDestroy).1, []) :=
  C4_token_destroy_once ⟨some 1, some 2⟩ 1 2 ⟨some 1, some 3⟩ 1 3
    rfl rfl rfl rfl

/-- C5: both lifetime tokens are move-only in the modelled operations:
move construction transfers the factory/group pointers and leaves the
source empty — its bool conversion false and a drop of it destroying
nothing — and move assignment destroys exactly what the destination
held before taking ownership.  (The copy constructor and copy assignment
are `= delete` in the header, so no copy operation exists to embed.) -/
theorem C5_tokens_move_only (t dst src : GraphicsDataToken)
    (q qdst qsrc : GraphicsBufferPoolToken) :
    (t.moveCtor).1 = ⟨t.m_factory, t.m_data⟩ ∧
    (t.moveCtor).2 = ⟨none, none⟩ ∧
    GraphicsDataToken.toBool (t.moveCtor).2 = false ∧
    ((t.moveCtor).2).doDestroy = ((t.moveCtor).2, []) ∧
    (GraphicsDataToken.moveAssign dst src).2 = (dst.doDestroy).2 ∧
    (GraphicsDataToken.moveAssign dst src).1.1
      = ⟨src.m_factory, src.m_data⟩ ∧
    (GraphicsDataToken.moveAssign dst src).1.2 = ⟨none, none⟩ ∧
    (q.moveCtor).1 = ⟨q.m_factory, q.m_pool⟩ ∧
    (q.moveCtor).2 = ⟨none, none⟩ ∧
    GraphicsBufferPoolToken.toBool (q.moveCtor).2 = false ∧
    ((q.moveCtor).2).doDestroy = ((q.moveCtor).2, []) ∧
    (GraphicsBufferPoolToken.moveAssign qdst qsrc).2 = (qdst.doDestroy).2 ∧
    (GraphicsBufferPoolToken.moveAssign qdst qsrc).1.1
      = ⟨qsrc.m_factory, qsrc.m_pool⟩ ∧
    (GraphicsBufferPoolToken.moveAssign qdst qsrc).1.2 = ⟨none, none⟩ := by
  refine ⟨rfl, rfl, rfl, rfl, rfl, rfl, rfl, rfl, rfl, rfl, rfl, rfl,
          rfl, rfl⟩

/-- C9: every MIDI endpoint constructor returns a null handle exactly when
the shared MIDI client is absent, a named real device lookup fails, or
OS endpoint/port creation fails; and in every case the engine's MIDI
client and its running audio queue are untouched, so a failure has no
effect beyond the returned null. -/
theorem C9_midi_null_on_failure (c : MidiCtx) (b1 b2 b3 b4 : Bool) :
    ((newVirtualMIDIIn c b1).2 = none
        ↔ c.m_midiClient = false ∨ b1 = false) ∧
    (newVirtualMIDIIn c b1).1.m_midiClient = c.m_midiClient ∧
    (newVirtualMIDIIn c b1).1.queueRunning = c.queueRunning ∧
    ((newVirtualMIDIOut c b1).2 = none
        ↔ c.m_midiClient = false ∨ b1 = false) ∧
    (newVirtualMIDIOut c b1).1.m_midiClient = c.m_midiClient ∧
    (newVirtualMIDIOut c b1).1.queueRunning = c.queueRunning ∧
    ((newVirtualMIDIInOut c b1 b2).2 = none
        ↔ c.m_midiClient = false ∨ b1 = false ∨ b2 = false) ∧
    (newVirtualMIDIInOut c b1 b2).1.m_midiClient = c.m_midiClient ∧
    (newVirtualMIDIInOut c b1 b2).1.queueRunning = c.queueRunning ∧
    ((newRealMIDIIn c b1 b2).2 = none
        ↔ c.m_midiClient = false ∨ b1 = false ∨ b2 = false) ∧
    (newRealMIDIIn c b1 b2).1.m_midiClient = c.m_midiClient ∧
    (newRealMIDIIn c b1 b2).1.queueRunning = c.queueRunning ∧
    ((newRealMIDIOut c b1 b2).2 = none
        ↔ c.m_midiClient = false ∨ b1 = false ∨ b2 = false) ∧
    (newRealMIDIOut c b1 b2).1.m_midiClient = c.m_midiClient ∧
    (newRealMIDIOut c b1 b2).1.queueRunning = c.queueRunning ∧
    ((newRealMIDIInOut c b1 b2 b3 b4).2 = none
        ↔ c.m_midiClient = false ∨ b1 = false ∨ b2 = false ∨
          b3 = false ∨ b4 = false) ∧
    (newRealMIDIInOut c b1 b2 b3 b4).1.m_midiClient = c.m_midiClient ∧
    (newRealMIDIInOut c b1 b2 b3 b4).1.queueRunning = c.queueRunning := by
  obtain ⟨mc, ic, oc, qr⟩ := c
  cases mc <;> cases b1 <;> cases b2 <;> cases b3 <;> cases b4 <;>
    simp [newVirtualMIDIIn, newVirtualMIDIOut, newVirtualMIDIInOut,
          newRealMIDIIn, newRealMIDIOut, newRealMIDIInOut]

/-- C7: when the callback starts outside an active retrace and its bounded
wait for the client times out, it zero-fills the full hardware period,
re-enqueues the buffer and returns without pumping any voice; the wait
bound is `periodFrames * 10^9 / sampleRate` nanoseconds, the engine stays
running and the callback flag is released so the next callback proceeds. -/
theorem C7_timeout_zero_fill (e : AQSEngine) (w : WaitOutcome)
    (hrun : e.m_cbRunning = true) (hretr : e.m_inRetrace = false)
    (htime : w.timedOut = true) :
    (AQSCallback e w).2.waitNanos
      = some (e.m_periodFrames * 1000000000 / e.m_sampleRate) ∧
    (AQSCallback e w).2.zeroFillBytes = e.m_frameBytes ∧
    (AQSCallback e w).2.enqueued = true ∧
    (AQSCallback e w).2.pumpedFrames = none ∧
    (AQSCallback e w).2.leaveNotified = true ∧
    (AQSCallback e w).1.m_cbRunning = true ∧
    (AQSCallback e w).1.m_inCb = false := by
  simp [AQSCallback, hrun, hretr, htime]

/-- C7 witness: a 480-frame period at 48 kHz, 7680 frame bytes, timing
out. -/
theorem C7_timeout_zero_fill_witness :
    (AQSCallback ⟨true, false, false, 480, 48000, 7680⟩
        ⟨true, false⟩).2.waitNanos = some (480 * 1000000000 / 48000) ∧
    (AQSCallback ⟨true, false, false, 480, 48000, 7680⟩
        ⟨true, false⟩).2.zeroFillBytes = 7680 ∧
    (AQSCallback ⟨true, false, false, 480, 48000, 7680⟩
        ⟨true, false⟩).2.enqueued = true ∧
    (AQSCallback ⟨true, false, false, 480, 48000, 7680⟩
        ⟨true, false⟩).2.pumpedFrames = none := by
  have h := C7_timeout_zero_fill ⟨true, false, false, 480, 48000, 7680⟩
    ⟨true, false⟩ rfl rfl rfl
  exact ⟨h.1, h.2.1, h.2.2.1, h.2.2.2.1⟩

/-- C2: for any requested frame count, a silent-out voice's resampler
input callback zero-fills the shared scratch-in staging for the full
request (frames samples mono, 2·frames samples stereo) and returns
exactly the requested frame count without invoking the client's
`supplyAudio`; with the flag clear it invokes `supplyAudio` and returns
whatever frame count the client produces. -/
theorem C2_silent_src_callback (v : AudioVoice)
    (supply : ℕ → List ℤ × ℕ) (scratchIn : List ℤ) (frames : ℕ) :
    (AudioVoiceMono.SRCCallback { v with m_silentOut := true }
        supply scratchIn frames).retFrames = frames ∧
    (AudioVoiceMono.SRCCallback { v with m_silentOut := true }
        supply scratchIn frames).supplyCalled = false ∧
    (AudioVoiceMono.SRCCallback { v with m_silentOut := true }
        supply scratchIn frames).m_scratchIn.take frames
      = List.replicate frames 0 ∧
    (AudioVoiceStereo.SRCCallback { v with m_silentOut := true }
        supply scratchIn frames).retFrames = frames ∧
    (AudioVoiceStereo.SRCCallback { v with m_silentOut := true }
        supply scratchIn frames).supplyCalled = false ∧
    (AudioVoiceStereo.SRCCallback { v with m_silentOut := true }
        supply scratchIn frames).m_scratchIn.take (frames * 2)
      = List.replicate (frames * 2) 0 ∧
    (AudioVoiceMono.SRCCallback { v with m_silentOut := false }
        supply scratchIn frames).retFrames = (supply frames).2 ∧
    (AudioVoiceMono.SRCCallback { v with m_silentOut := false }
        supply scratchIn frames).supplyCalled = true ∧
    (AudioVoiceStereo.SRCCallback { v with m_silentOut := false }
        supply scratchIn frames).retFrames = (supply frames).2 ∧
    (AudioVoiceStereo.SRCCallback { v with m_silentOut := false }
        supply scratchIn frames).supplyCalled = true := by
  refine ⟨rfl, rfl, ?_, rfl, rfl, ?_, rfl, rfl, rfl, rfl⟩ <;>
    · simp only [AudioVoiceMono.SRCCallback, AudioVoiceStereo.SRCCallback,
                 if_pos rfl]
      exact overwrite_take_replicate _ _ _ (by rw [length_growTo]; omega)

/-- C8: a device-connect event inserts a token exactly when scanning is
enabled and the set lacks a token for that OS handle; after such a
connect the set holds exactly one token keyed by the handle, and a
repeated connect of the same handle changes nothing, so no second token
ever appears. -/
theorem C8_connect_unique (s : TokenSet) (props props2 : DeviceProps)
    (device : ℕ) (h : s.hasToken device = false) :
    (deviceConnected true s props device).countHandle device = 1 ∧
    deviceConnected true (deviceConnected true s props device) props2 device
      = deviceConnected true s props device ∧
    (∀ s2 : TokenSet, s2.hasToken device = true →
        deviceConnected true s2 props device = s2) ∧
    (∀ s2 : TokenSet, deviceConnected false s2 props device = s2) := by
  have h' : ∀ t ∈ s, ¬ t.handle = device := by
    simpa [TokenSet.hasToken] using h
  have h0 : s.countHandle device = 0 := by
    simp only [TokenSet.countHandle, List.countP_eq_zero]
    intro t ht
    simpa using h' t ht
  have hc : deviceConnected true s props device
      = s.insertToken ⟨props.vid, props.pid, props.manuf, props.product,
                       device⟩ := by
    simp [deviceConnected, h]
  have hhas : (deviceConnected true s props device).hasToken device
      = true := by
    rw [hc]
    simp [TokenSet.hasToken, TokenSet.insertToken]
  have hskip : ∀ (s2 : TokenSet), s2.hasToken device = true →
      deviceConnected true s2 props2 device = s2 := by
    intro s2 h2
    simp [deviceConnected, h2]
  refine ⟨?_, hskip _ hhas, ?_, ?_⟩
  · rw [hc]
    simp only [TokenSet.insertToken, TokenSet.countHandle] at h0 ⊢
    simp [List.countP_append, h0, List.countP_cons]
  · intro s2 h2
    simp [deviceConnected, h2]
  · intro s2
    simp [deviceConnected]

/-- C8 witness: connecting handle 7 twice to an empty set while scanning
leaves exactly one token for handle 7. -/
theorem C8_connect_unique_witness :
    TokenSet.hasToken [] 7 = false ∧
    (deviceConnected true [] ⟨1, 2, "m", "p"⟩ 7).countHandle 7 = 1 ∧
    deviceConnected true (deviceConnected true [] ⟨1, 2, "m", "p"⟩ 7)
        ⟨1, 2, "m", "p"⟩ 7
      = deviceConnected true [] ⟨1, 2, "m", "p"⟩ 7 := by
  have h := C8_connect_unique [] ⟨1, 2, "m", "p"⟩ ⟨1, 2, "m", "p"⟩ 7 rfl
  exact ⟨rfl, h.1, h.2.1⟩

/-- C1: for a dynamic-rate voice, `setPitchRatio` and `resetSampleRate`
only latch the requested values and pending flags without touching the
resampler; each pump variant requests resampler output from the state
left by `_midUpdate`, which applies the deferred changes with the
sample-rate reset first (rebuilding the resampler at the new input rate
against the engine mix rate) and the pitch-ratio change second (setting
the io ratio computed from the new rates), clearing both pending flags. -/
theorem C1_deferred_params (preSupply : AudioVoice → AudioVoice)
    (outFn : SoxrState → ℕ → ℕ) (mixRate : ℚ) (n5ms chans mainBus : ℕ)
    (v : AudioVoice) (s : EngineScratch) (ratio sr : ℚ) (slew : Bool)
    (frames : ℕ) (hdyn : v.m_dynamicRate = true) :
    v.setPitchRatio ratio slew
      = { v with m_setPitchRatio := true, m_pitchRatio := ratio,
                 m_slew := slew } ∧
    (v.setPitchRatio ratio slew).m_src = v.m_src ∧
    v.resetSampleRate sr
      = { v with m_resetSampleRate := true,
                 m_deferredSampleRate := sr } ∧
    (v.resetSampleRate sr).m_src = v.m_src ∧
    (AudioVoice._midUpdate chans mixRate n5ms
        ((v.resetSampleRate sr).setPitchRatio ratio slew)).m_src
      = soxr_set_io_ratio (soxr_create sr mixRate chans)
          (ratio * sr / mixRate) 0 ∧
    (AudioVoice._midUpdate chans mixRate n5ms
        ((v.resetSampleRate sr).setPitchRatio ratio slew)).m_sampleRateIn
      = sr ∧
    (AudioVoice._midUpdate chans mixRate n5ms
        ((v.resetSampleRate sr).setPitchRatio ratio
          slew)).m_setPitchRatio = false ∧
    (AudioVoice._midUpdate chans mixRate n5ms
        ((v.resetSampleRate sr).setPitchRatio ratio
          slew)).m_resetSampleRate = false ∧
    (AudioVoiceMono.pumpAndMix16 preSupply outFn mixRate n5ms mainBus
        v s frames).oDone
      = outFn (AudioVoice._midUpdate 1 mixRate n5ms
          (preSupply v)).m_src frames ∧
    (AudioVoiceMono.pumpAndMix32 preSupply outFn mixRate n5ms mainBus
        v s frames).oDone
      = outFn (AudioVoice._midUpdate 1 mixRate n5ms
          (preSupply v)).m_src frames ∧
    (AudioVoiceMono.pumpAndMixFlt preSupply outFn mixRate n5ms mainBus
        v s frames).oDone
      = outFn (AudioVoice._midUpdate 1 mixRate n5ms
          (preSupply v)).m_src frames ∧
    (AudioVoiceStereo.pumpAndMix16 preSupply outFn mixRate n5ms mainBus
        v s frames).oDone
      = outFn (AudioVoice._midUpdate 2 mixRate n5ms
          (preSupply v)).m_src frames ∧
    (AudioVoiceStereo.pumpAndMix32 preSupply outFn mixRate n5ms mainBus
        v s frames).oDone
      = outFn (AudioVoice._midUpdate 2 mixRate n5ms
          (preSupply v)).m_src frames ∧
    (AudioVoiceStereo.pumpAndMixFlt preSupply outFn mixRate n5ms mainBus
        v s frames).oDone
      = outFn (AudioVoice._midUpdate 2 mixRate n5ms
          (preSupply v)).m_src frames := by
  refine ⟨rfl, rfl, rfl, rfl, ?_, ?_, ?_, ?_, rfl, rfl, rfl, rfl, rfl,
          rfl⟩ <;>
    simp [AudioVoice._midUpdate, AudioVoice._resetSampleRateCh,
          AudioVoice._setPitchRatio, AudioVoice.setPitchRatio,
          AudioVoice.resetSampleRate, hdyn]

/-- C1 witness: the dynamic sample voice latches a reset to 44100 Hz and a
slewed ratio 3/2; at `_midUpdate` the resampler is rebuilt at 44100 Hz
and its io ratio becomes (3/2)·44100/48000. -/
theorem C1_deferred_params_witness :
    sampleVoiceDyn.m_dynamicRate = true ∧
    (sampleVoiceDyn.setPitchRatio (3 / 2) true).m_src
      = sampleVoiceDyn.m_src ∧
    (sampleVoiceDyn.resetSampleRate 44100).m_src = sampleVoiceDyn.m_src ∧
    (AudioVoice._midUpdate 1 48000 240
        ((sampleVoiceDyn.resetSampleRate 44100).setPitchRatio (3 / 2)
          true)).m_src
      = soxr_set_io_ratio (soxr_create 44100 48000 1)
          (3 / 2 * 44100 / 48000) 0 := by
  have h := C1_deferred_params id (fun _ f => f) 48000 240 1 0
    sampleVoiceDyn sampleScratch (3 / 2) 44100 true 480 rfl
  exact ⟨rfl, h.2.1, h.2.2.2.1, h.2.2.2.2.1⟩

/-- Deferred parameter application never edits the send-matrix map. -/
lemma midUpdate_sendMatrices (chans : ℕ) (mixRate : ℚ) (n5ms : ℕ)
    (v : AudioVoice) :
    (AudioVoice._midUpdate chans mixRate n5ms v).m_sendMatrices
      = v.m_sendMatrices := by
  rcases v with ⟨dyn, run, sil, spr, pr, sl, rsr, dsr, sri, sro, src, sm⟩
  cases rsr <;> cases spr <;> cases dyn <;>
    simp [AudioVoice._midUpdate, AudioVoice._resetSampleRateCh,
          AudioVoice._setPitchRatio]

/-- C3: whenever a pump of a voice whose send-matrix map is empty obtains
at least one resampler output frame, the routed block is mixed through
the default mono matrix (mono voices) or default stereo matrix (stereo
voices) into the main submix's merge buffer, and that is the only mix
performed. -/
theorem C3_default_matrix_to_main (preSupply : AudioVoice → AudioVoice)
    (outFn : SoxrState → ℕ → ℕ) (mixRate : ℚ) (n5ms mainBus : ℕ)
    (v : AudioVoice) (s : EngineScratch) (frames : ℕ)
    (hempty : (preSupply v).m_sendMatrices = []) :
    ((AudioVoiceMono.pumpAndMix16 preSupply outFn mixRate n5ms mainBus
          v s frames).oDone ≠ 0 →
      (AudioVoiceMono.pumpAndMix16 preSupply outFn mixRate n5ms mainBus
          v s frames).mixes
        = [⟨mainBus, MixMatrix.defaultMono,
            (AudioVoiceMono.pumpAndMix16 preSupply outFn mixRate n5ms
              mainBus v s frames).oDone⟩]) ∧
    ((AudioVoiceMono.pumpAndMix32 preSupply outFn mixRate n5ms mainBus
          v s frames).oDone ≠ 0 →
      (AudioVoiceMono.pumpAndMix32 preSupply outFn mixRate n5ms mainBus
          v s frames).mixes
        = [⟨mainBus, MixMatrix.defaultMono,
            (AudioVoiceMono.pumpAndMix32 preSupply outFn mixRate n5ms
              mainBus v s frames).oDone⟩]) ∧
    ((AudioVoiceMono.pumpAndMixFlt preSupply outFn mixRate n5ms mainBus
          v s frames).oDone ≠ 0 →
      (AudioVoiceMono.pumpAndMixFlt preSupply outFn mixRate n5ms mainBus
          v s frames).mixes
        = [⟨mainBus, MixMatrix.defaultMono,
            (AudioVoiceMono.pumpAndMixFlt preSupply outFn mixRate n5ms
              mainBus v s frames).oDone⟩]) ∧
    ((AudioVoiceStereo.pumpAndMix16 preSupply outFn mixRate n5ms mainBus
          v s frames).oDone ≠ 0 →
      (AudioVoiceStereo.pumpAndMix16 preSupply outFn mixRate n5ms mainBus
          v s frames).mixes
        = [⟨mainBus, MixMatrix.defaultStereo,
            (AudioVoiceStereo.pumpAndMix16 preSupply outFn mixRate n5ms
              mainBus v s frames).oDone⟩]) ∧
    ((AudioVoiceStereo.pumpAndMix32 preSupply outFn mixRate n5ms mainBus
          v s frames).oDone ≠ 0 →
      (AudioVoiceStereo.pumpAndMix32 preSupply outFn mixRate n5ms mainBus
          v s frames).mixes
        = [⟨mainBus, MixMatrix.defaultStereo,
            (AudioVoiceStereo.pumpAndMix32 preSupply outFn mixRate n5ms
              mainBus v s frames).oDone⟩]) ∧
    ((AudioVoiceStereo.pumpAndMixFlt preSupply outFn mixRate n5ms mainBus
          v s frames).oDone ≠ 0 →
      (AudioVoiceStereo.pumpAndMixFlt preSupply outFn mixRate n5ms mainBus
          v s frames).mixes
        = [⟨mainBus, MixMatrix.defaultStereo,
            (AudioVoiceStereo.pumpAndMixFlt preSupply outFn mixRate n5ms
              mainBus v s frames).oDone⟩]) := by
  refine ⟨?_, ?_, ?_, ?_, ?_, ?_⟩ <;>
    · intro hne
      simp only [AudioVoiceMono.pumpAndMix16, AudioVoiceMono.pumpAndMix32,
                 AudioVoiceMono.pumpAndMixFlt,
                 AudioVoiceStereo.pumpAndMix16,
                 AudioVoiceStereo.pumpAndMix32,
                 AudioVoiceStereo.pumpAndMixFlt] at hne ⊢
      simp [midUpdate_sendMatrices, hempty, hne]

/-- C3 witness: the dynamic sample voice (empty send map) under an oracle
resampler producing the full request mixes one default-matrix block into
main bus 0, for the mono and the stereo int16 pump. -/
theorem C3_default_matrix_to_main_witness :
    (AudioVoiceMono.pumpAndMix16 id (fun _ f => f) 48000 240 0
        sampleVoiceDyn sampleScratch 480).oDone ≠ 0 ∧
    (AudioVoiceMono.pumpAndMix16 id (fun _ f => f) 48000 240 0
        sampleVoiceDyn sampleScratch 480).mixes
      = [⟨0, MixMatrix.defaultMono, 480⟩] ∧
    (AudioVoiceStereo.pumpAndMix16 id (fun _ f => f) 48000 240 0
        sampleVoiceDyn sampleScratch 480).mixes
      = [⟨0, MixMatrix.defaultStereo, 480⟩] := by
  have h := C3_default_matrix_to_main id (fun _ f => f) 48000 240 0
    sampleVoiceDyn sampleScratch 480 rfl
  refine ⟨by decide, ?_, ?_⟩
  · have := h.1 (by decide)
    simpa using this
  · have := h.2.2.2.1 (by decide)
    simpa using this

lemma sizesLE_refl (a : ScratchSizes) : sizesLE a a := by
  unfold sizesLE
  omega

lemma sizesLE_trans {a b c : ScratchSizes} (h1 : sizesLE a b)
    (h2 : sizesLE b c) : sizesLE a c := by
  unfold sizesLE at *
  omega

lemma length_SRCCallback_mono (v : AudioVoice) (supply : ℕ → List ℤ × ℕ)
    (sIn : List ℤ) (f : ℕ) :
    (AudioVoiceMono.SRCCallback v supply sIn f).m_scratchIn.length
      = max sIn.length f := by
  unfold AudioVoiceMono.SRCCallback
  split <;> simp [length_overwrite, length_growTo]

lemma length_SRCCallback_stereo (v : AudioVoice)
    (supply : ℕ → List ℤ × ℕ) (sIn : List ℤ) (f : ℕ) :
    (AudioVoiceStereo.SRCCallback v supply sIn f).m_scratchIn.length
      = max sIn.length (f * 2) := by
  unfold AudioVoiceStereo.SRCCallback
  split <;> simp [length_overwrite, length_growTo]

/-- Every scratch operation's effect on the vector sizes is monotone. -/
lemma scratch_apply_mono (op : ScratchOp) (s : EngineScratch) :
    sizesLE (scratchLens s) (scratchLens (op.apply s)) := by
  cases op <;>
    simp [ScratchOp.apply, AudioVoiceMono.pumpAndMix16,
          AudioVoiceMono.pumpAndMix32, AudioVoiceMono.pumpAndMixFlt,
          AudioVoiceStereo.pumpAndMix16, AudioVoiceStereo.pumpAndMix32,
          AudioVoiceStereo.pumpAndMixFlt, scratchLens, sizesLE,
          length_growTo, length_growToPad, length_SRCCallback_mono,
          length_SRCCallback_stereo] <;>
    (first
      | omega
      | (split_ifs <;> omega))

/-- A scratch operation leaves each vector it stages at least as large as
its demand. -/
lemma scratch_apply_demand (op : ScratchOp) (s : EngineScratch) :
    sizesLE op.demand (scratchLens (op.apply s)) := by
  cases op <;>
    simp [ScratchOp.apply, ScratchOp.demand, AudioVoiceMono.pumpAndMix16,
          AudioVoiceMono.pumpAndMix32, AudioVoiceMono.pumpAndMixFlt,
          AudioVoiceStereo.pumpAndMix16, AudioVoiceStereo.pumpAndMix32,
          AudioVoiceStereo.pumpAndMixFlt, scratchLens, sizesLE,
          length_growTo, length_growToPad, length_SRCCallback_mono,
          length_SRCCallback_stereo] <;>
    (first
      | omega
      | (split_ifs <;> omega))

/-- A scratch operation whose demand is already met changes no vector
size. -/
lemma scratch_apply_fixed (op : ScratchOp) (s : EngineScratch)
    (h : sizesLE op.demand (scratchLens s)) :
    scratchLens (op.apply s) = scratchLens s := by
  cases op <;>
    · simp [ScratchOp.demand, scratchLens, sizesLE] at h
      simp [ScratchOp.apply, AudioVoiceMono.pumpAndMix16,
            AudioVoiceMono.pumpAndMix32, AudioVoiceMono.pumpAndMixFlt,
            AudioVoiceStereo.pumpAndMix16, AudioVoiceStereo.pumpAndMix32,
            AudioVoiceStereo.pumpAndMixFlt, scratchLens,
            length_growTo, length_growToPad, length_SRCCallback_mono,
            length_SRCCallback_stereo]
      omega

/-- Running any sequence of scratch operations is monotone on sizes. -/
lemma scratch_foldl_mono (ops : List ScratchOp) (s : EngineScratch) :
    sizesLE (scratchLens s)
      (scratchLens (List.foldl ScratchOp.apply s ops)) := by
  induction ops generalizing s with
  | nil => exact sizesLE_refl _
  | cons o t ih =>
      exact sizesLE_trans (scratch_apply_mono o s) (ih (o.apply s))

/-- After a sequence of scratch operations, every operation's demand is
met by the final sizes. -/
lemma scratch_foldl_demand (ops : List ScratchOp) (s0 : EngineScratch)
    (op : ScratchOp) (h : op ∈ ops) :
    sizesLE op.demand
      (scratchLens (List.foldl ScratchOp.apply s0 ops)) := by
  induction ops generalizing s0 with
  | nil => cases h
  | cons o t ih =>
      rcases List.mem_cons.mp h with rfl | hmem
      · exact sizesLE_trans (scratch_apply_demand op s0)
          (scratch_foldl_mono t (op.apply s0))
      · exact ih (ScratchOp.apply s0 o) hmem

/-- C6: scratch-vector discipline.  Every pump or resampler-input callback
grows each scratch vector it touches monotonically (never shrinking any),
leaves every vector size unchanged when the current size already meets
the demand, and after any sequence of such operations every vector's size
is at least the largest frames-times-channels demand any operation in the
sequence placed on it. -/
theorem C6_scratch_capacity (ops : List ScratchOp) (s0 : EngineScratch)
    (op : ScratchOp) (hmem : op ∈ ops) (s : EngineScratch)
    (hbig : sizesLE op.demand (scratchLens s)) :
    (∀ s' : EngineScratch,
        sizesLE (scratchLens s') (scratchLens (op.apply s'))) ∧
    scratchLens (op.apply s) = scratchLens s ∧
    sizesLE op.demand
      (scratchLens (List.foldl ScratchOp.apply s0 ops)) :=
  ⟨fun s' => scratch_apply_mono op s',
   scratch_apply_fixed op s hbig,
   scratch_foldl_demand ops s0 op hmem⟩

/-- C6 witness: a four-frame mono input callback against the sample
scratch state, whose staging vector already holds four samples. -/
theorem C6_scratch_capacity_witness :
    sampleSrcOp ∈ [sampleSrcOp] ∧
    sizesLE (ScratchOp.demand sampleSrcOp) (scratchLens sampleScratch) ∧
    scratchLens (ScratchOp.apply sampleScratch sampleSrcOp)
      = scratchLens sampleScratch ∧
    sizesLE (ScratchOp.demand sampleSrcOp)
      (scratchLens
        (List.foldl ScratchOp.apply sampleScratch [sampleSrcOp])) := by
  have h := C6_scratch_capacity [sampleSrcOp] sampleScratch sampleSrcOp
    (by simp) sampleScratch (by decide)
  exact ⟨by simp, by decide, h.2.1, h.2.2⟩

end boo
